import Mathlib

set_option maxHeartbeats 1000000

namespace Gotest

/-- Result of a structured comparison (`cmp.Result`). Modelled from the spec: the
`cmp` package is an external collaborator whose code is not under `src/`; the spec
defines `Result` as a tagged outcome with variants `Success` and `Failure(message)`. -/
inductive CmpResult
  | Success : CmpResult
  | Failure : String → CmpResult
deriving DecidableEq

/-- Whether a `cmp.Result` is the `Success` variant. -/
def CmpResult.isSuccess : CmpResult → Bool
  | .Success => true
  | .Failure _ => false

/-- The `BoolOrComparison` argument of `assert` (assert.go line 79): a runtime value
that `assert` inspects with a type switch. The recognized shapes are a plain `bool`,
an undocumented legacy `func() (bool, string)`, a named `cmp.Comparison`, and an
unnamed `func() cmp.Result` (Go type switches distinguish the named and the unnamed
function type, so assert.go has two cases that run the same code); `other` stands
for every remaining runtime type and carries the text `%T` would render for it. -/
inductive BoolOrComparison
  | bool : Bool → BoolOrComparison
  | legacyFunc : (Unit → Bool × String) → BoolOrComparison
  | comparison : (Unit → CmpResult) → BoolOrComparison
  | comparisonFunc : (Unit → CmpResult) → BoolOrComparison
  | other : String → BoolOrComparison

/-- Observable interactions of the dispatch engine with the test context (Helper,
Log, Fail, FailNow) plus the instrumented internal calls: each invocation of
`source.FormattedCallExprArg` (with its two arguments) and each invocation of a
legacy or structured comparison function. -/
inductive Event
  | helper : Event
  | log : String → Event
  | fail : Event
  | failNow : Event
  | recover : Nat → Nat → Event
  | invokeLegacy : Event
  | invokeComparison : Event
deriving DecidableEq

/-- How a call to the dispatch engine terminates: a normal boolean return, a halt of
the current test unit caused by `FailNow` (a non-local control transfer, so nothing
after the call runs), or a Go panic carrying its message. -/
inductive Outcome
  | ret : Bool → Outcome
  | halted : Outcome
  | panicked : String → Outcome
deriving DecidableEq

/-- The result of executing one entry point: the ordered trace of events followed by
the termination mode. -/
structure ExecResult where
  events : List Event
  outcome : Outcome
deriving DecidableEq

/-- The `TestingT` test context (assert.go lines 82-86). `Log`, `Fail` and `FailNow`
are modelled as trace events; the only varying capability is whether the concrete
context additionally implements the `helperT` interface (assert.go lines 88-90). -/
structure TestingT where
  hasHelper : Bool
deriving DecidableEq

/-- Events produced by the prologue `if ht, ok := t.(helperT); ok { ht.Helper() }`
that each exported function and internal helper runs. -/
def helperEvents (t : TestingT) : List Event :=
  if t.hasHelper then [Event.helper] else []

/-- The two concrete values ever passed as the `failer func()` argument of `assert`:
`t.FailNow` (from `Assert`, `NilError`, `Equal`) and `t.Fail` (from `Check`). -/
inductive Escalation
  | failNow : Escalation
  | fail : Escalation
deriving DecidableEq

/-- Executing `failer()` followed by `assert`'s trailing `return false`. Modelled
from the spec for the part outside `src/`: `failNow()` marks the test failed and
halts the current test unit by non-local control transfer, so the `return false`
after `failer()` is unreachable in that case; `fail()` marks the test failed and
returns, so `assert` then returns `false`. -/
def runFailer : Escalation → List Event × Outcome
  | .failNow => ([Event.failNow], Outcome.halted)
  | .fail => ([Event.fail], Outcome.ret false)

/-- Modelled from the spec: the ArgumentFilterPolicy. The values
`filterExprArgsFromComparison` and `filterExprExcludeFirst` and the type
`astExprListFilter` belong to a file of the `assert` package that is not under
`src/`; the dispatch engine only passes the policy through as metadata. -/
inductive astExprListFilter
  | filterExprArgsFromComparison : astExprListFilter
  | filterExprExcludeFirst : astExprListFilter
deriving DecidableEq

/-- Modelled from the spec: an extra message part (`msgAndArgs`); the first part may
be a lazy zero-argument string producer, otherwise parts are plain values rendered
to text. -/
inductive MsgPart
  | str : String → MsgPart
  | lazyFn : (Unit → String) → MsgPart

/-- The text a message part contributes: a plain string itself, a lazy producer its
invocation result. -/
def MsgPart.text : MsgPart → String
  | .str s => s
  | .lazyFn f => f ()

/-- Modelled from the spec: the rendering of the extra message parts by
`format.Message` (the `internal/format` package is not under `src/`); the positional
templated-string join is abstracted as rendering each part and joining with single
spaces, and a lazy part is invoked and its result substituted. -/
def formatMessageParts (parts : List MsgPart) : String :=
  String.intercalate " " (parts.map MsgPart.text)

/-- Modelled from the spec: `format.WithCustomMessage` (not under `src/`): when the
extra parts render to the empty string the base message is returned unchanged,
otherwise the rendered extra parts are appended after the base message separated by
a single space. -/
def withCustomMessage (base : String) (msgAndArgs : List MsgPart) : String :=
  if formatMessageParts msgAndArgs = "" then base
  else base ++ " " ++ formatMessageParts msgAndArgs

/-- Modelled from the spec: `source.FormattedCallExprArg(stackIndex, argPos)` (the
`internal/source` package is not under `src/`). Its result depends on the caller's
stack and source file, so the embedding receives it as an oracle mapping the two
arguments to either the recovered expression text or an error; per the Go
multiple-return convention the string result is the zero value `""` on error. -/
abbrev RecoverOracle : Type := Nat → Nat → Except String String

/-- The string constant `failureMessage` (assert.go line 92). -/
def failureMessage : String := "assertion failed: "

/-- `logFailureFromBool` (assert.go lines 148-158): invokes source recovery with the
fixed constants `stackIndex = 3` and `comparisonArgPos = 1`; if recovery fails it
first logs the raw error text (the recovered string being then the zero value `""`),
and in every case logs `failureMessage + source + " is false"` merged with the extra
message parts. The `t TestingT` parameter is only the target of `t.Log`, which the
trace records. -/
def logFailureFromBool (rec : RecoverOracle) (msgAndArgs : List MsgPart) : List Event :=
  match rec 3 1 with
  | .ok src =>
      [Event.recover 3 1,
       Event.log (withCustomMessage (failureMessage ++ src ++ " is false") msgAndArgs)]
  | .error e =>
      [Event.recover 3 1, Event.log e,
       Event.log (withCustomMessage (failureMessage ++ "" ++ " is false") msgAndArgs)]

/-- `runCompareFunc` (assert.go lines 133-146): runs the helper prologue, invokes
the legacy two-value function once (recorded as `invokeLegacy`); on failure logs
`failureMessage + message` merged with the extra parts and reports `false`,
otherwise reports `true` without logging. -/
def runCompareFunc (t : TestingT) (f : Unit → Bool × String)
    (msgAndArgs : List MsgPart) : List Event × Bool :=
  let r := f ()
  if r.1 then (helperEvents t ++ [Event.invokeLegacy], true)
  else (helperEvents t ++
        [Event.invokeLegacy,
         Event.log (withCustomMessage (failureMessage ++ r.2) msgAndArgs)], false)

/-- Modelled from the spec: `runComparison` (a file of the `assert` package that is
not under `src/`): runs the helper prologue, invokes the structured comparison once
(recorded as `invokeComparison`); on `Failure(m)` logs `failureMessage + m` merged
with the extra parts and reports `false`, on `Success` reports `true` without
logging; the argument-filter policy is metadata passed through, unused here. -/
def runComparison (t : TestingT) (_argsFilter : astExprListFilter)
    (f : Unit → CmpResult) (msgAndArgs : List MsgPart) : List Event × Bool :=
  match f () with
  | .Success => (helperEvents t ++ [Event.invokeComparison], true)
  | .Failure m =>
      (helperEvents t ++
       [Event.invokeComparison,
        Event.log (withCustomMessage (failureMessage ++ m) msgAndArgs)], false)

/-- `assert` (assert.go lines 94-131): the dispatch engine. Runs the helper
prologue, then type-switches on the comparison: a true bool returns `true`
immediately; a false bool calls `logFailureFromBool`; the legacy function shape goes
through `runCompareFunc`; the two structured shapes go through `runComparison`; any
other runtime type panics with `"comparison arg must be bool or Comparison, not %T"`.
When the selected branch reports failure, `failer()` runs and then `return false`
(unreachable after `FailNow`). -/
def assert (t : TestingT) (failer : Escalation) (argsFilter : astExprListFilter)
    (rec : RecoverOracle) (comparison : BoolOrComparison)
    (msgAndArgs : List MsgPart) : ExecResult :=
  match comparison with
  | .bool check =>
      if check then ⟨helperEvents t, Outcome.ret true⟩
      else
        ⟨helperEvents t ++ logFailureFromBool rec msgAndArgs ++ (runFailer failer).1,
         (runFailer failer).2⟩
  | .legacyFunc f =>
      let r := runCompareFunc t f msgAndArgs
      if r.2 then ⟨helperEvents t ++ r.1, Outcome.ret true⟩
      else ⟨helperEvents t ++ r.1 ++ (runFailer failer).1, (runFailer failer).2⟩
  | .comparison f =>
      let r := runComparison t argsFilter f msgAndArgs
      if r.2 then ⟨helperEvents t ++ r.1, Outcome.ret true⟩
      else ⟨helperEvents t ++ r.1 ++ (runFailer failer).1, (runFailer failer).2⟩
  | .comparisonFunc f =>
      let r := runComparison t argsFilter f msgAndArgs
      if r.2 then ⟨helperEvents t ++ r.1, Outcome.ret true⟩
      else ⟨helperEvents t ++ r.1 ++ (runFailer failer).1, (runFailer failer).2⟩
  | .other typeName =>
      ⟨helperEvents t,
       Outcome.panicked ("comparison arg must be bool or Comparison, not " ++ typeName)⟩

/-- `Assert` (assert.go lines 162-167): helper prologue, then the dispatch engine
with `t.FailNow` as failer and the `filterExprArgsFromComparison` policy. The Go
function discards the boolean `assert` returns; the outcome is kept in the model so
halting is visible. -/
def Assert (t : TestingT) (rec : RecoverOracle) (comparison : BoolOrComparison)
    (msgAndArgs : List MsgPart) : ExecResult :=
  let r := assert t Escalation.failNow astExprListFilter.filterExprArgsFromComparison
      rec comparison msgAndArgs
  ⟨helperEvents t ++ r.events, r.outcome⟩

/-- `Check` (assert.go lines 171-176): helper prologue, then the dispatch engine
with `t.Fail` as failer and the `filterExprArgsFromComparison` policy, returning the
engine's boolean. -/
def Check (t : TestingT) (rec : RecoverOracle) (comparison : BoolOrComparison)
    (msgAndArgs : List MsgPart) : ExecResult :=
  let r := assert t Escalation.fail astExprListFilter.filterExprArgsFromComparison
      rec comparison msgAndArgs
  ⟨helperEvents t ++ r.events, r.outcome⟩

/-- Modelled from the spec: `cmp.NilError(err)` (the `cmp` package is not under
`src/`) builds a structured comparison that succeeds iff the error is nil; on a
non-nil error the self-describing failure message names it. An error value is
modelled as `Option String` carrying its message. -/
def cmpNilError (err : Option String) : Unit → CmpResult :=
  fun _ => match err with
    | none => CmpResult.Success
    | some e => CmpResult.Failure ("error is not nil: " ++ e)

/-- `NilError` (assert.go lines 180-185): helper prologue, then the dispatch engine
with `t.FailNow`, the `filterExprExcludeFirst` policy and the `cmp.NilError(err)`
structured comparison. -/
def NilError (t : TestingT) (rec : RecoverOracle) (err : Option String)
    (msgAndArgs : List MsgPart) : ExecResult :=
  let r := assert t Escalation.failNow astExprListFilter.filterExprExcludeFirst
      rec (BoolOrComparison.comparison (cmpNilError err)) msgAndArgs
  ⟨helperEvents t ++ r.events, r.outcome⟩

/-- Modelled from the spec: `cmp.Equal(x, y)` (the `cmp` package is not under
`src/`) builds a structured comparison using `==`; its failure message renders both
values. -/
def cmpEqual {α : Type} [DecidableEq α] [ToString α] (x y : α) : Unit → CmpResult :=
  fun _ =>
    if x = y then CmpResult.Success
    else CmpResult.Failure (toString x ++ " != " ++ toString y)

/-- `Equal` (assert.go lines 189-194): helper prologue, then the dispatch engine
with `t.FailNow`, the `filterExprExcludeFirst` policy and the `cmp.Equal(x, y)`
structured comparison. -/
def Equal {α : Type} [DecidableEq α] [ToString α] (t : TestingT) (rec : RecoverOracle)
    (x y : α) (msgAndArgs : List MsgPart) : ExecResult :=
  let r := assert t Escalation.failNow astExprListFilter.filterExprExcludeFirst
      rec (BoolOrComparison.comparison (cmpEqual x y)) msgAndArgs
  ⟨helperEvents t ++ r.events, r.outcome⟩

/-- The success verdict `assert` computes for a comparison value: `none` marks the
unrecognized runtime types, which panic instead of producing a verdict. -/
def succeeded : BoolOrComparison → Option Bool
  | .bool b => some b
  | .legacyFunc f => some (f ()).1
  | .comparison f => some (f ()).isSuccess
  | .comparisonFunc f => some (f ()).isSuccess
  | .other _ => none

/-- Whether an event is a `Log` call. -/
def Event.isLog : Event → Bool
  | .log _ => true
  | _ => false

/-- Whether an event is an invocation of source recovery. -/
def Event.isRecover : Event → Bool
  | .recover _ _ => true
  | _ => false

/-- The number of `Log` calls in a trace. -/
def countLogs (evs : List Event) : Nat :=
  (evs.filter Event.isLog).length

/-- A trace with the `Helper` events removed, for comparing the behaviour on test
contexts with and without the `helperT` capability. -/
def eraseHelpers : List Event → List Event
  | [] => []
  | Event.helper :: rest => eraseHelpers rest
  | e :: rest => e :: eraseHelpers rest

/-- The single trace event the failer emits: `FailNow` for the Assert escalation,
`Fail` for the Check escalation. -/
def escEvent : Escalation → Event
  | .failNow => Event.failNow
  | .fail => Event.fail

/-- A concrete recovery oracle that succeeds with the expression text of the spec's
concrete scenario. -/
def recOk : RecoverOracle := fun _ _ => Except.ok "total != 10"

/-- A concrete recovery oracle that fails with the error text "oops". -/
def recErr : RecoverOracle := fun _ _ => Except.error "oops"

theorem runFailer_fst (failer : Escalation) : (runFailer failer).1 = [escEvent failer] := by
  cases failer <;> rfl

theorem mem_helperEvents (e : Event) (t : TestingT) :
    e ∈ helperEvents t ↔ (t.hasHelper = true ∧ e = Event.helper) := by
  rcases t with ⟨hh⟩
  cases hh <;> simp [helperEvents]

/-- C1: for every recognized comparison value (bool, legacy two-value function, or
structured comparison) and every escalation, `assert` returns `true` iff the
comparison succeeded, and `Check` returns exactly the verdict of the comparison
(`false` when it failed). -/
theorem C1_dispatch_returns_iff_success
    (t : TestingT) (failer : Escalation) (filt : astExprListFilter)
    (rec : RecoverOracle) (c : BoolOrComparison) (m : List MsgPart) (b : Bool)
    (h : succeeded c = some b) :
    ((assert t failer filt rec c m).outcome = Outcome.ret true ↔ b = true)
    ∧ (Check t rec c m).outcome = Outcome.ret b := by
  cases c with
  | bool check =>
      simp only [succeeded, Option.some.injEq] at h
      subst h
      cases check <;> cases failer <;>
        simp [assert, Check, runFailer]
  | legacyFunc f =>
      rcases hf : f () with ⟨s, msg⟩
      simp only [succeeded, hf, Option.some.injEq] at h
      subst h
      cases s <;> cases failer <;>
        simp [assert, Check, runCompareFunc, runFailer, hf]
  | comparison f =>
      rcases hf : f () with _ | msg <;>
        simp only [succeeded, hf, CmpResult.isSuccess, Option.some.injEq] at h <;>
        subst h <;> cases failer <;>
        simp [assert, Check, runComparison, runFailer, hf]
  | comparisonFunc f =>
      rcases hf : f () with _ | msg <;>
        simp only [succeeded, hf, CmpResult.isSuccess, Option.some.injEq] at h <;>
        subst h <;> cases failer <;>
        simp [assert, Check, runComparison, runFailer, hf]
  | other name =>
      simp [succeeded] at h

/-- Witness for C1 at the concrete input `Check(t, true)`. -/
theorem C1_dispatch_returns_iff_success_witness :
    ((assert ⟨false⟩ Escalation.fail astExprListFilter.filterExprArgsFromComparison
        recOk (BoolOrComparison.bool true) []).outcome = Outcome.ret true ↔ true = true)
    ∧ (Check ⟨false⟩ recOk (BoolOrComparison.bool true) []).outcome = Outcome.ret true :=
  C1_dispatch_returns_iff_success ⟨false⟩ Escalation.fail
    astExprListFilter.filterExprArgsFromComparison recOk (BoolOrComparison.bool true) [] true rfl

/-- C2: a false bool comparison invokes source recovery with the fixed stack depth
3 and argument position 1 and logs `"assertion failed: " + recoveredText + " is
false"` merged with the extra message parts, then runs the escalation; in
particular, when recovery yields `"total != 10"` with no extra parts,
`Assert(t, total != 10)` logs `"assertion failed: total != 10 is false"`, calls
`FailNow`, and the call does not return. -/
theorem C2_bool_failure_recovery_message
    (t : TestingT) (failer : Escalation) (filt : astExprListFilter)
    (rec : RecoverOracle) (m : List MsgPart) (src : String)
    (hrec : rec 3 1 = Except.ok src) :
    ((assert t failer filt rec (BoolOrComparison.bool false) m).events
      = helperEvents t ++
        [Event.recover 3 1,
         Event.log (withCustomMessage (failureMessage ++ src ++ " is false") m)]
        ++ [escEvent failer])
    ∧ (src = "total != 10" → m = [] →
        Event.log "assertion failed: total != 10 is false"
            ∈ (Assert t rec (BoolOrComparison.bool false) m).events
        ∧ Event.failNow ∈ (Assert t rec (BoolOrComparison.bool false) m).events
        ∧ (Assert t rec (BoolOrComparison.bool false) m).outcome = Outcome.halted) := by
  constructor
  · simp [assert, logFailureFromBool, hrec, runFailer_fst]
  · intro hsrc hm
    subst hsrc; subst hm
    have hmsg : withCustomMessage (failureMessage ++ "total != 10" ++ " is false") []
        = "assertion failed: total != 10 is false" := rfl
    refine ⟨?_, ?_, ?_⟩
    · simp [Assert, assert, logFailureFromBool, hrec, hmsg]
    · simp [Assert, assert, runFailer]
    · simp [Assert, assert, runFailer]

/-- Witness for C2 at a context without the helper capability, the succeeding
oracle, and no extra message parts. -/
theorem C2_bool_failure_recovery_message_witness :
    ((assert ⟨false⟩ Escalation.failNow astExprListFilter.filterExprArgsFromComparison
        recOk (BoolOrComparison.bool false) []).events
      = helperEvents ⟨false⟩ ++
        [Event.recover 3 1,
         Event.log (withCustomMessage (failureMessage ++ "total != 10" ++ " is false") [])]
        ++ [escEvent Escalation.failNow])
    ∧ ("total != 10" = "total != 10" → ([] : List MsgPart) = [] →
        Event.log "assertion failed: total != 10 is false"
            ∈ (Assert ⟨false⟩ recOk (BoolOrComparison.bool false) []).events
        ∧ Event.failNow ∈ (Assert ⟨false⟩ recOk (BoolOrComparison.bool false) []).events
        ∧ (Assert ⟨false⟩ recOk (BoolOrComparison.bool false) []).outcome = Outcome.halted) :=
  C2_bool_failure_recovery_message ⟨false⟩ Escalation.failNow
    astExprListFilter.filterExprArgsFromComparison recOk [] "total != 10" rfl

/-- C3: on every failing comparison, `Assert` invokes `FailNow` (never `Fail`) and
halts the test unit, while `Check` invokes `Fail` (never `FailNow`), returns
`false`, and control returns to the caller. -/
theorem C3_assert_halts_check_continues
    (t : TestingT) (rec : RecoverOracle) (c : BoolOrComparison) (m : List MsgPart)
    (h : succeeded c = some false) :
    ((Assert t rec c m).outcome = Outcome.halted
      ∧ Event.failNow ∈ (Assert t rec c m).events
      ∧ Event.fail ∉ (Assert t rec c m).events)
    ∧ ((Check t rec c m).outcome = Outcome.ret false
      ∧ Event.fail ∈ (Check t rec c m).events
      ∧ Event.failNow ∉ (Check t rec c m).events) := by
  rcases t with ⟨hh⟩
  cases c with
  | bool check =>
      simp only [succeeded, Option.some.injEq] at h
      subst h
      rcases hr : rec 3 1 with src | e <;> cases hh <;>
        simp [Assert, Check, assert, logFailureFromBool, runFailer, helperEvents, hr]
  | legacyFunc f =>
      rcases hf : f () with ⟨s, msg⟩
      simp only [succeeded, hf, Option.some.injEq] at h
      subst h
      cases hh <;>
        simp [Assert, Check, assert, runCompareFunc, runFailer, helperEvents, hf]
  | comparison f =>
      rcases hf : f () with _ | msg
      · simp [succeeded, hf, CmpResult.isSuccess] at h
      · cases hh <;>
          simp [Assert, Check, assert, runComparison, runFailer, helperEvents, hf]
  | comparisonFunc f =>
      rcases hf : f () with _ | msg
      · simp [succeeded, hf, CmpResult.isSuccess] at h
      · cases hh <;>
          simp [Assert, Check, assert, runComparison, runFailer, helperEvents, hf]
  | other name =>
      simp [succeeded] at h

/-- Witness for C3 at the failing bool comparison with the succeeding oracle. -/
theorem C3_assert_halts_check_continues_witness :
    ((Assert ⟨true⟩ recOk (BoolOrComparison.bool false) []).outcome = Outcome.halted
      ∧ Event.failNow ∈ (Assert ⟨true⟩ recOk (BoolOrComparison.bool false) []).events
      ∧ Event.fail ∉ (Assert ⟨true⟩ recOk (BoolOrComparison.bool false) []).events)
    ∧ ((Check ⟨true⟩ recOk (BoolOrComparison.bool false) []).outcome = Outcome.ret false
      ∧ Event.fail ∈ (Check ⟨true⟩ recOk (BoolOrComparison.bool false) []).events
      ∧ Event.failNow ∉ (Check ⟨true⟩ recOk (BoolOrComparison.bool false) []).events) :=
  C3_assert_halts_check_continues ⟨true⟩ recOk (BoolOrComparison.bool false) [] rfl

/-- C4: a comparison value of an unrecognized runtime type makes the dispatch
operation panic with the `%T`-naming message; it calls none of `Log`, `Fail`,
`FailNow`, and does not return normally. -/
theorem C4_unrecognized_type_panics
    (t : TestingT) (failer : Escalation) (filt : astExprListFilter)
    (rec : RecoverOracle) (name : String) (m : List MsgPart) :
    ((assert t failer filt rec (BoolOrComparison.other name) m).outcome
      = Outcome.panicked ("comparison arg must be bool or Comparison, not " ++ name))
    ∧ (∀ s, Event.log s ∉ (assert t failer filt rec (BoolOrComparison.other name) m).events)
    ∧ Event.fail ∉ (assert t failer filt rec (BoolOrComparison.other name) m).events
    ∧ Event.failNow ∉ (assert t failer filt rec (BoolOrComparison.other name) m).events
    ∧ (∀ b, (assert t failer filt rec (BoolOrComparison.other name) m).outcome ≠ Outcome.ret b) := by
  rcases t with ⟨hh⟩
  cases hh <;> simp [assert, helperEvents]

/-- Witness for C4 at a concrete unrecognized value of runtime type `int`. -/
theorem C4_unrecognized_type_panics_witness :
    (assert ⟨false⟩ Escalation.fail astExprListFilter.filterExprArgsFromComparison
      recOk (BoolOrComparison.other "int") []).outcome
      = Outcome.panicked "comparison arg must be bool or Comparison, not int" :=
  (C4_unrecognized_type_panics ⟨false⟩ Escalation.fail
    astExprListFilter.filterExprArgsFromComparison recOk "int" []).1

theorem append_space_ne_empty (a b : String) : a ++ " " ++ b ≠ "" := by
  intro h
  have h2 := congrArg String.length h
  rw [String.length_append, String.length_append] at h2
  have h1 : (" " : String).length = 1 := rfl
  have h0 : ("" : String).length = 0 := rfl
  rw [h1, h0] at h2
  omega

theorem withCustomMessage_ne_empty (base : String) (m : List MsgPart) (h : base ≠ "") :
    withCustomMessage base m ≠ "" := by
  unfold withCustomMessage
  split
  · exact h
  · exact append_space_ne_empty base (formatMessageParts m)

/-- C5: the dispatch operation invokes a legacy two-value comparison function
exactly once and never invokes source recovery; when the function reports
`(false, msg)` the logged text is `"assertion failed: " + msg` merged with the
extra message parts, and when it reports success the operation returns `true`
without logging. -/
theorem C5_legacy_invoked_once_no_recovery
    (t : TestingT) (failer : Escalation) (filt : astExprListFilter)
    (rec : RecoverOracle) (f : Unit → Bool × String) (m : List MsgPart) :
    ((assert t failer filt rec (BoolOrComparison.legacyFunc f) m).events.count
        Event.invokeLegacy = 1)
    ∧ (∀ d p, Event.recover d p
        ∉ (assert t failer filt rec (BoolOrComparison.legacyFunc f) m).events)
    ∧ (∀ msg, f () = (false, msg) →
        Event.log (withCustomMessage (failureMessage ++ msg) m)
          ∈ (assert t failer filt rec (BoolOrComparison.legacyFunc f) m).events)
    ∧ (∀ msg, f () = (true, msg) →
        (assert t failer filt rec (BoolOrComparison.legacyFunc f) m).outcome
            = Outcome.ret true
        ∧ ∀ s, Event.log s
            ∉ (assert t failer filt rec (BoolOrComparison.legacyFunc f) m).events) := by
  rcases t with ⟨hh⟩
  rcases hf : f () with ⟨s, msg0⟩
  refine ⟨?_, ?_, ?_, ?_⟩
  · cases s <;> cases hh <;> cases failer <;>
      simp [assert, runCompareFunc, runFailer, helperEvents, hf]
  · intro d p
    cases s <;> cases hh <;> cases failer <;>
      simp [assert, runCompareFunc, runFailer, helperEvents, hf]
  · intro msg heq
    injection heq with hs hmsg
    subst hs
    subst hmsg
    cases hh <;> cases failer <;>
      simp [assert, runCompareFunc, runFailer, helperEvents, hf]
  · intro msg heq
    injection heq with hs hmsg
    subst hs
    subst hmsg
    cases hh <;> cases failer <;>
      simp [assert, runCompareFunc, runFailer, helperEvents, hf]

/-- Witness for C5 at a concrete failing legacy function returning
`(false, "boom")`. -/
theorem C5_legacy_invoked_once_no_recovery_witness :
    ((assert ⟨false⟩ Escalation.fail astExprListFilter.filterExprArgsFromComparison
        recOk (BoolOrComparison.legacyFunc (fun _ => (false, "boom"))) []).events.count
        Event.invokeLegacy = 1)
    ∧ Event.log (withCustomMessage (failureMessage ++ "boom") [])
        ∈ (assert ⟨false⟩ Escalation.fail astExprListFilter.filterExprArgsFromComparison
            recOk (BoolOrComparison.legacyFunc (fun _ => (false, "boom"))) []).events :=
  ⟨(C5_legacy_invoked_once_no_recovery ⟨false⟩ Escalation.fail
      astExprListFilter.filterExprArgsFromComparison recOk (fun _ => (false, "boom")) []).1,
   (C5_legacy_invoked_once_no_recovery ⟨false⟩ Escalation.fail
      astExprListFilter.filterExprArgsFromComparison recOk
      (fun _ => (false, "boom")) []).2.2.1 "boom" rfl⟩

/-- C6: when a false bool comparison's source recovery errors, the error is never
propagated to the dispatch operation's caller (the outcome is never a panic and is
exactly what the escalation dictates): the raw error text is logged, the
non-empty fallback failure message is logged, and the escalation is still
invoked. -/
theorem C6_recovery_error_absorbed
    (t : TestingT) (failer : Escalation) (filt : astExprListFilter)
    (rec : RecoverOracle) (m : List MsgPart) (e : String)
    (hrec : rec 3 1 = Except.error e) :
    Event.log e ∈ (assert t failer filt rec (BoolOrComparison.bool false) m).events
    ∧ Event.log (withCustomMessage (failureMessage ++ "" ++ " is false") m)
        ∈ (assert t failer filt rec (BoolOrComparison.bool false) m).events
    ∧ (∃ s, Event.log s
          ∈ (assert t failer filt rec (BoolOrComparison.bool false) m).events ∧ s ≠ "")
    ∧ (∀ p, (assert t failer filt rec (BoolOrComparison.bool false) m).outcome
          ≠ Outcome.panicked p)
    ∧ escEvent failer ∈ (assert t failer filt rec (BoolOrComparison.bool false) m).events
    ∧ (assert t failer filt rec (BoolOrComparison.bool false) m).outcome
        = (runFailer failer).2 := by
  rcases t with ⟨hh⟩
  refine ⟨?_, ?_,
    ⟨withCustomMessage (failureMessage ++ "" ++ " is false") m, ?_,
      withCustomMessage_ne_empty _ m (by decide)⟩, ?_, ?_, ?_⟩ <;>
    cases hh <;> cases failer <;>
      simp [assert, logFailureFromBool, hrec, runFailer, helperEvents, escEvent]

/-- Witness for C6 at the erroring oracle `recErr`. -/
theorem C6_recovery_error_absorbed_witness :
    Event.log "oops" ∈ (assert ⟨false⟩ Escalation.fail
        astExprListFilter.filterExprArgsFromComparison recErr
        (BoolOrComparison.bool false) []).events
    ∧ Event.log (withCustomMessage (failureMessage ++ "" ++ " is false") [])
        ∈ (assert ⟨false⟩ Escalation.fail
            astExprListFilter.filterExprArgsFromComparison recErr
            (BoolOrComparison.bool false) []).events :=
  ⟨(C6_recovery_error_absorbed ⟨false⟩ Escalation.fail
      astExprListFilter.filterExprArgsFromComparison recErr [] "oops" rfl).1,
   (C6_recovery_error_absorbed ⟨false⟩ Escalation.fail
      astExprListFilter.filterExprArgsFromComparison recErr [] "oops" rfl).2.1⟩

/-- C7 counterexample: at the concrete input `assert(t, Fail, false)` with a
recovery oracle that errors, `Log` is invoked twice (the raw error text and the
fallback failure message), refuting the claim that `Log` is invoked exactly once
regardless of whether recovery succeeds or errors. -/
theorem C7_counterexample_two_logs :
    countLogs (assert ⟨false⟩ Escalation.fail astExprListFilter.filterExprArgsFromComparison
        recErr (BoolOrComparison.bool false) []).events = 2
    ∧ ¬ (countLogs (assert ⟨false⟩ Escalation.fail
        astExprListFilter.filterExprArgsFromComparison
        recErr (BoolOrComparison.bool false) []).events = 1) := by
  decide

/-- C7 amended: for every false bool comparison, when source recovery succeeds
`Log` is invoked exactly once; when recovery errors `Log` is invoked exactly twice
(the raw error text, then the failure message); in both cases exactly one of
`Fail`/`FailNow` is invoked, exactly once, according to the escalation. -/
theorem C7_amended_log_count
    (t : TestingT) (failer : Escalation) (filt : astExprListFilter)
    (rec : RecoverOracle) (m : List MsgPart) :
    ((∃ s, rec 3 1 = Except.ok s) →
        countLogs (assert t failer filt rec (BoolOrComparison.bool false) m).events = 1)
    ∧ ((∃ e, rec 3 1 = Except.error e) →
        countLogs (assert t failer filt rec (BoolOrComparison.bool false) m).events = 2)
    ∧ (failer = Escalation.fail →
        (assert t failer filt rec (BoolOrComparison.bool false) m).events.count
            Event.fail = 1
        ∧ (assert t failer filt rec (BoolOrComparison.bool false) m).events.count
            Event.failNow = 0)
    ∧ (failer = Escalation.failNow →
        (assert t failer filt rec (BoolOrComparison.bool false) m).events.count
            Event.failNow = 1
        ∧ (assert t failer filt rec (BoolOrComparison.bool false) m).events.count
            Event.fail = 0) := by
  rcases t with ⟨hh⟩
  refine ⟨?_, ?_, ?_, ?_⟩
  · rintro ⟨s, hr⟩
    cases hh <;> cases failer <;>
      simp [countLogs, assert, logFailureFromBool, hr, runFailer, helperEvents, Event.isLog]
  · rintro ⟨e, hr⟩
    cases hh <;> cases failer <;>
      simp [countLogs, assert, logFailureFromBool, hr, runFailer, helperEvents, Event.isLog]
  · rintro rfl
    rcases hr : rec 3 1 with s | e <;> cases hh <;>
      simp [assert, logFailureFromBool, hr, runFailer, helperEvents]
  · rintro rfl
    rcases hr : rec 3 1 with s | e <;> cases hh <;>
      simp [assert, logFailureFromBool, hr, runFailer, helperEvents]

/-- Witness for the amended C7 at the erroring oracle and the Check escalation. -/
theorem C7_amended_log_count_witness :
    countLogs (assert ⟨false⟩ Escalation.fail astExprListFilter.filterExprArgsFromComparison
        recErr (BoolOrComparison.bool false) []).events = 2
    ∧ (assert ⟨false⟩ Escalation.fail astExprListFilter.filterExprArgsFromComparison
        recErr (BoolOrComparison.bool false) []).events.count Event.fail = 1 :=
  ⟨(C7_amended_log_count ⟨false⟩ Escalation.fail
      astExprListFilter.filterExprArgsFromComparison recErr []).2.1 ⟨"oops", rfl⟩,
   ((C7_amended_log_count ⟨false⟩ Escalation.fail
      astExprListFilter.filterExprArgsFromComparison recErr []).2.2.1 rfl).1⟩

/-- C8: on every failing comparison the trace ends with the escalation event and a
`Log` call occurs strictly before it: the events are a prefix containing a log,
followed by the single `Fail`/`FailNow` event. -/
theorem C8_log_before_escalation
    (t : TestingT) (failer : Escalation) (filt : astExprListFilter)
    (rec : RecoverOracle) (c : BoolOrComparison) (m : List MsgPart)
    (h : succeeded c = some false) :
    ∃ pre, (assert t failer filt rec c m).events = pre ++ [escEvent failer]
      ∧ ∃ s, Event.log s ∈ pre := by
  cases c with
  | bool check =>
      simp only [succeeded, Option.some.injEq] at h
      subst h
      refine ⟨helperEvents t ++ logFailureFromBool rec m, ?_, ?_⟩
      · simp [assert, runFailer_fst]
      · rcases hr : rec 3 1 with e | s
        · exact ⟨e, by simp [logFailureFromBool, hr]⟩
        · exact ⟨withCustomMessage (failureMessage ++ s ++ " is false") m,
            by simp [logFailureFromBool, hr]⟩
  | legacyFunc f =>
      rcases hf : f () with ⟨s, msg0⟩
      simp only [succeeded, hf, Option.some.injEq] at h
      subst h
      refine ⟨helperEvents t ++ (runCompareFunc t f m).1, ?_, ?_⟩
      · simp [assert, runCompareFunc, hf, runFailer_fst]
      · exact ⟨withCustomMessage (failureMessage ++ msg0) m,
          by simp [runCompareFunc, hf]⟩
  | comparison f =>
      rcases hf : f () with _ | msg
      · simp [succeeded, hf, CmpResult.isSuccess] at h
      · refine ⟨helperEvents t ++ (runComparison t filt f m).1, ?_, ?_⟩
        · simp [assert, runComparison, hf, runFailer_fst]
        · exact ⟨withCustomMessage (failureMessage ++ msg) m,
            by simp [runComparison, hf]⟩
  | comparisonFunc f =>
      rcases hf : f () with _ | msg
      · simp [succeeded, hf, CmpResult.isSuccess] at h
      · refine ⟨helperEvents t ++ (runComparison t filt f m).1, ?_, ?_⟩
        · simp [assert, runComparison, hf, runFailer_fst]
        · exact ⟨withCustomMessage (failureMessage ++ msg) m,
            by simp [runComparison, hf]⟩
  | other name =>
      simp [succeeded] at h

/-- Witness for C8 at the failing bool comparison with the succeeding oracle. -/
theorem C8_log_before_escalation_witness :
    ∃ pre, (assert ⟨false⟩ Escalation.failNow
        astExprListFilter.filterExprArgsFromComparison recOk
        (BoolOrComparison.bool false) []).events = pre ++ [escEvent Escalation.failNow]
      ∧ ∃ s, Event.log s ∈ pre :=
  C8_log_before_escalation ⟨false⟩ Escalation.failNow
    astExprListFilter.filterExprArgsFromComparison recOk (BoolOrComparison.bool false) [] rfl

/-- C9: a succeeding comparison of any recognized shape makes the dispatch
operation return `true` with no observable effect on the test context: no `Log`,
no `Fail`, no `FailNow`, and no source recovery. -/
theorem C9_success_no_effects
    (t : TestingT) (failer : Escalation) (filt : astExprListFilter)
    (rec : RecoverOracle) (c : BoolOrComparison) (m : List MsgPart)
    (h : succeeded c = some true) :
    (assert t failer filt rec c m).outcome = Outcome.ret true
    ∧ (∀ s, Event.log s ∉ (assert t failer filt rec c m).events)
    ∧ Event.fail ∉ (assert t failer filt rec c m).events
    ∧ Event.failNow ∉ (assert t failer filt rec c m).events
    ∧ (∀ d p, Event.recover d p ∉ (assert t failer filt rec c m).events) := by
  rcases t with ⟨hh⟩
  cases c with
  | bool check =>
      simp only [succeeded, Option.some.injEq] at h
      subst h
      cases hh <;> simp [assert, helperEvents]
  | legacyFunc f =>
      rcases hf : f () with ⟨s, msg0⟩
      simp only [succeeded, hf, Option.some.injEq] at h
      subst h
      cases hh <;> simp [assert, runCompareFunc, hf, helperEvents]
  | comparison f =>
      rcases hf : f () with _ | msg
      · cases hh <;> simp [assert, runComparison, hf, helperEvents]
      · simp [succeeded, hf, CmpResult.isSuccess] at h
  | comparisonFunc f =>
      rcases hf : f () with _ | msg
      · cases hh <;> simp [assert, runComparison, hf, helperEvents]
      · simp [succeeded, hf, CmpResult.isSuccess] at h
  | other name =>
      simp [succeeded] at h

/-- Witness for C9 at the succeeding bool comparison `Check(t, true)`. -/
theorem C9_success_no_effects_witness :
    (assert ⟨true⟩ Escalation.fail astExprListFilter.filterExprArgsFromComparison
        recOk (BoolOrComparison.bool true) []).outcome = Outcome.ret true :=
  (C9_success_no_effects ⟨true⟩ Escalation.fail
      astExprListFilter.filterExprArgsFromComparison recOk (BoolOrComparison.bool true) [] rfl).1

theorem eraseHelpers_append (a b : List Event) :
    eraseHelpers (a ++ b) = eraseHelpers a ++ eraseHelpers b := by
  induction a with
  | nil => rfl
  | cons e rest ih => cases e <;> simp [eraseHelpers, ih]

theorem assert_helper_erasure
    (failer : Escalation) (filt : astExprListFilter) (rec : RecoverOracle)
    (c : BoolOrComparison) (m : List MsgPart) :
    eraseHelpers (assert ⟨true⟩ failer filt rec c m).events
      = (assert ⟨false⟩ failer filt rec c m).events
    ∧ (assert ⟨true⟩ failer filt rec c m).outcome
      = (assert ⟨false⟩ failer filt rec c m).outcome := by
  cases c with
  | bool check =>
      cases check
      · rcases hr : rec 3 1 with e | s <;> cases failer <;>
          simp [assert, eraseHelpers, eraseHelpers_append, logFailureFromBool, hr,
            runFailer, helperEvents]
      · simp [assert, eraseHelpers, helperEvents]
  | legacyFunc f =>
      rcases hf : f () with ⟨s, msg0⟩
      cases s <;> cases failer <;>
        simp [assert, eraseHelpers, eraseHelpers_append, runCompareFunc, hf,
          runFailer, helperEvents]
  | comparison f =>
      rcases hf : f () with _ | msg <;> cases failer <;>
        simp [assert, eraseHelpers, eraseHelpers_append, runComparison, hf,
          runFailer, helperEvents]
  | comparisonFunc f =>
      rcases hf : f () with _ | msg <;> cases failer <;>
        simp [assert, eraseHelpers, eraseHelpers_append, runComparison, hf,
          runFailer, helperEvents]
  | other name =>
      simp [assert, eraseHelpers, helperEvents]

/-- C10: every public entry point (`Assert`, `Check`, `NilError`, `Equal`) calls
`Helper()` first, before any other interaction with the context, when the context
implements the `helperT` interface; on a context without it the behaviour is
identical apart from the missing `Helper` calls (same outcome, same other events),
so a minimal `TestingT` with only `FailNow`/`Fail`/`Log` is always accepted. -/
theorem C10_helper_called_first_and_optional
    {α : Type} [DecidableEq α] [ToString α]
    (rec : RecoverOracle) (c : BoolOrComparison) (m : List MsgPart)
    (err : Option String) (x y : α) :
    ((Assert ⟨true⟩ rec c m).events.head? = some Event.helper
      ∧ eraseHelpers (Assert ⟨true⟩ rec c m).events = (Assert ⟨false⟩ rec c m).events
      ∧ (Assert ⟨true⟩ rec c m).outcome = (Assert ⟨false⟩ rec c m).outcome)
    ∧ ((Check ⟨true⟩ rec c m).events.head? = some Event.helper
      ∧ eraseHelpers (Check ⟨true⟩ rec c m).events = (Check ⟨false⟩ rec c m).events
      ∧ (Check ⟨true⟩ rec c m).outcome = (Check ⟨false⟩ rec c m).outcome)
    ∧ ((NilError ⟨true⟩ rec err m).events.head? = some Event.helper
      ∧ eraseHelpers (NilError ⟨true⟩ rec err m).events = (NilError ⟨false⟩ rec err m).events
      ∧ (NilError ⟨true⟩ rec err m).outcome = (NilError ⟨false⟩ rec err m).outcome)
    ∧ ((Equal ⟨true⟩ rec x y m).events.head? = some Event.helper
      ∧ eraseHelpers (Equal ⟨true⟩ rec x y m).events = (Equal ⟨false⟩ rec x y m).events
      ∧ (Equal ⟨true⟩ rec x y m).outcome = (Equal ⟨false⟩ rec x y m).outcome) := by
  have hA := assert_helper_erasure Escalation.failNow
    astExprListFilter.filterExprArgsFromComparison rec c m
  have hC := assert_helper_erasure Escalation.fail
    astExprListFilter.filterExprArgsFromComparison rec c m
  have hN := assert_helper_erasure Escalation.failNow
    astExprListFilter.filterExprExcludeFirst rec
    (BoolOrComparison.comparison (cmpNilError err)) m
  have hE := assert_helper_erasure Escalation.failNow
    astExprListFilter.filterExprExcludeFirst rec
    (BoolOrComparison.comparison (cmpEqual x y)) m
  refine ⟨⟨?_, ?_, ?_⟩, ⟨?_, ?_, ?_⟩, ⟨?_, ?_, ?_⟩, ⟨?_, ?_, ?_⟩⟩
  · simp [Assert, helperEvents]
  · simp [Assert, helperEvents, eraseHelpers_append, eraseHelpers, hA.1]
  · simp [Assert, helperEvents, hA.2]
  · simp [Check, helperEvents]
  · simp [Check, helperEvents, eraseHelpers_append, eraseHelpers, hC.1]
  · simp [Check, helperEvents, hC.2]
  · simp [NilError, helperEvents]
  · simp [NilError, helperEvents, eraseHelpers_append, eraseHelpers, hN.1]
  · simp [NilError, helperEvents, hN.2]
  · simp [Equal, helperEvents]
  · simp [Equal, helperEvents, eraseHelpers_append, eraseHelpers, hE.1]
  · simp [Equal, helperEvents, hE.2]

/-- Witness for C10 at concrete inputs (a true bool comparison, a nil error, the
numbers 1 and 2). -/
theorem C10_helper_called_first_and_optional_witness :
    (Assert ⟨true⟩ recOk (BoolOrComparison.bool true) []).events.head?
      = some Event.helper :=
  (C10_helper_called_first_and_optional recOk (BoolOrComparison.bool true) []
    none (1 : Nat) 2).1.1

end Gotest
